import Mathlib

/-!
Verification development for the custom-subtitles repository.

The embedding models, from `content.js`, the `SubtitleTrack` class (SRT
parsing, active-caption lookup) and the `DualSubtitlePlayer` class (dual-track
seeking, ticking, play/pause and the animation-frame scheduler), and from the
single-track variant (`SubtitlePlayer`) the play guard and the
auto-reset-at-duration tick.

JavaScript numbers that can be `NaN` are modelled by `JVal` (an integer or
NaN); positions, offsets and tick deltas are plain integers.  The modelled
fragment of `Number(string)` and `parseInt` covers whitespace, an optional
sign and decimal digit runs — the forms SRT timecode fields and typed time
inputs take; fraction, exponent, hex and infinity literals are outside the
fragment and behave as non-numeric.
-/

/-- A JavaScript number that may be `NaN`: an integer value or NaN. -/
inductive JVal where
  | nan : JVal
  | num : ℤ → JVal
deriving DecidableEq, Repr

namespace JVal

/-- JavaScript `+` on numbers: NaN-propagating addition. -/
def jadd : JVal → JVal → JVal
  | num a, num b => num (a + b)
  | _, _ => nan

/-- JavaScript multiplication by a numeric constant: NaN-propagating. -/
def jmulc : JVal → ℤ → JVal
  | num a, c => num (a * c)
  | nan, _ => nan

/-- JavaScript `<=` on numbers: any comparison with NaN is false. -/
def jle : JVal → JVal → Bool
  | num a, num b => a ≤ b
  | _, _ => false

end JVal

/-- The whitespace characters trimmed by JavaScript `String.prototype.trim`
and skipped by `Number` / `parseInt` (ASCII fragment). -/
def isJsWs (c : Char) : Bool :=
  c = ' ' || c = '\t' || c = '\n' || c = '\r' || c = '\x0b' || c = '\x0c'

/-- JavaScript `trim` on a character list: drop whitespace at both ends. -/
def jsTrimChars (l : List Char) : List Char :=
  ((l.dropWhile isJsWs).reverse.dropWhile isJsWs).reverse

/-- JavaScript `String.prototype.trim`. -/
def jsTrimStr (s : String) : String :=
  ⟨jsTrimChars s.data⟩

/-- Value of a list of decimal digit characters. -/
def digitsToNat (l : List Char) : ℕ :=
  l.foldl (fun a c => a * 10 + (c.toNat - 48)) 0

/-- JavaScript `Number(string)` on the integer fragment: trimmed empty
string is 0; an optional sign followed by a non-empty run of decimal digits
is that integer; anything else (a comma, a letter, or any character beyond
the digit run) is NaN.  Fraction, exponent, hex and infinity literals are
outside the modelled fragment and behave as non-numeric. -/
def jsNumber (s : String) : JVal :=
  let t := jsTrimChars s.data
  if t.isEmpty then .num 0
  else
    let signAndRest : ℤ × List Char :=
      match t with
      | '+' :: r => (1, r)
      | '-' :: r => (-1, r)
      | r => (1, r)
    let intPart := signAndRest.2.takeWhile Char.isDigit
    let rest2 := signAndRest.2.dropWhile Char.isDigit
    if rest2.isEmpty && !intPart.isEmpty then .num (signAndRest.1 * digitsToNat intPart)
    else .nan

/-- JavaScript `parseInt` applied to a possibly-`undefined` string: skip
leading whitespace, optional sign, then the leading run of digits; NaN when
the run is empty or the argument is `undefined`. -/
def jsParseInt : Option String → JVal
  | none => .nan
  | some s =>
    let t := s.data.dropWhile isJsWs
    let signAndRest : ℤ × List Char :=
      match t with
      | '+' :: r => (1, r)
      | '-' :: r => (-1, r)
      | r => (1, r)
    let ds := signAndRest.2.takeWhile Char.isDigit
    if ds.isEmpty then .nan else .num (signAndRest.1 * digitsToNat ds)

/-- One line terminator of the regex `\r?\n`: consumes `\r\n` or `\n`. -/
def eatCRLF : List Char → Option (List Char)
  | '\r' :: '\n' :: rest => some rest
  | '\n' :: rest => some rest
  | _ => none

/-- Greedy match of the block-separator regex `\r?\n\r?\n+` at the head of
the list, returning the remainder after the separator. -/
def sepMatch (cs : List Char) : Option (List Char) :=
  match eatCRLF cs with
  | none => none
  | some cs1 =>
    match cs1 with
    | '\r' :: '\n' :: rest => some (rest.dropWhile (· = '\n'))
    | '\n' :: rest => some (rest.dropWhile (· = '\n'))
    | _ => none

/-- Fuelled scanner for `String.prototype.split(/\r?\n\r?\n+/)`: splits at
every leftmost greedy match of the separator.  Fuel at least the input
length makes the fuel-exhausted branch unreachable. -/
def splitBlocksAux : ℕ → List Char → List Char → List (List Char)
  | 0, cs, acc => [acc.reverse ++ cs]
  | _ + 1, [], acc => [acc.reverse]
  | fuel + 1, c :: rest, acc =>
    match sepMatch (c :: rest) with
    | some cs' => acc.reverse :: splitBlocksAux fuel cs' []
    | none => splitBlocksAux fuel rest (c :: acc)

/-- JavaScript `content.split(/\r?\n\r?\n+/)` from `parseSRT`. -/
def splitBlocksStr (s : String) : List String :=
  (splitBlocksAux s.data.length s.data []).map (fun l => ⟨l⟩)

/-- Fuelled scanner for `String.prototype.split(/\r?\n/)`. -/
def splitLinesAux : ℕ → List Char → List Char → List (List Char)
  | 0, cs, acc => [acc.reverse ++ cs]
  | _ + 1, [], acc => [acc.reverse]
  | fuel + 1, c :: rest, acc =>
    match eatCRLF (c :: rest) with
    | some cs' => acc.reverse :: splitLinesAux fuel cs' []
    | none => splitLinesAux fuel rest (c :: acc)

/-- JavaScript `block.split(/\r?\n/)` from `parseSRT`. -/
def splitLinesStr (s : String) : List String :=
  (splitLinesAux s.data.length s.data []).map (fun l => ⟨l⟩)

/-- Whether the first list is a prefix of the second. -/
def listStartsWith : List Char → List Char → Bool
  | [], _ => true
  | _ :: _, [] => false
  | p :: ps, c :: cs => p = c && listStartsWith ps cs

/-- Fuelled scanner for JavaScript `String.prototype.split` with a literal
non-empty separator string: split at every leftmost occurrence. -/
def splitSepAux (sep : List Char) : ℕ → List Char → List Char → List (List Char)
  | 0, cs, acc => [acc.reverse ++ cs]
  | _ + 1, [], acc => [acc.reverse]
  | fuel + 1, c :: rest, acc =>
    if listStartsWith sep (c :: rest) then
      acc.reverse :: splitSepAux sep fuel ((c :: rest).drop sep.length) []
    else splitSepAux sep fuel rest (c :: acc)

/-- JavaScript `s.split(sep)` for a literal separator. -/
def jsSplitOn (s : String) (sep : String) : List String :=
  (splitSepAux sep.data s.data.length s.data []).map (fun l => ⟨l⟩)

/-- Character content of `textLines.join('\n')`. -/
def joinNewlineChars : List String → List Char
  | [] => []
  | [l] => l.data
  | l :: rest => l.data ++ '\n' :: joinNewlineChars rest

/-- JavaScript `textLines.join('\n')`. -/
def jsJoinNewline (l : List String) : String :=
  ⟨joinNewlineChars l⟩

/-- One parsed subtitle entry: `{ start, end, text }` from `parseSRT`.
`start` and `end_` are `JVal` because a non-numeric timecode field makes
them NaN without any error being thrown. -/
structure SrtEntry where
  start : JVal
  end_ : JVal
  text : String
deriving DecidableEq, Repr

/-- Model of `SubtitleTrack.timeToMs(timeStr)` from `content.js`: split on the comma,
split the clock part on colons, map `Number` over the fields, and combine
with NaN-propagating arithmetic plus `parseInt` of the millisecond part.
Called on `undefined` (a missing ` --> ` side) it throws, modelled as
`Except.error`. -/
def timeToMs : Option String → Except Unit JVal
  | none => .error ()
  | some timeStr =>
    let parts := jsSplitOn timeStr ","
    let time := parts.headD ""
    let ms := parts[1]?
    let fs := (jsSplitOn time ":").map jsNumber
    .ok (JVal.jadd
      (JVal.jadd
        (JVal.jadd (JVal.jmulc (fs[0]?.getD .nan) 3600000)
          (JVal.jmulc (fs[1]?.getD .nan) 60000))
        (JVal.jmulc (fs[2]?.getD .nan) 1000))
      (jsParseInt ms))

/-- The body of the `blocks.map` callback in `SubtitleTrack.parseSRT`: drop
the index line, split the timecode line on `--> `, convert both sides.
A block with fewer than two lines makes `timecode` `undefined`, and a
timecode without the separator makes `endTime` `undefined`; both throw. -/
def parseBlock (block : String) : Except Unit SrtEntry :=
  let lines := splitLinesStr block
  match lines[1]? with
  | none => .error ()
  | some timecode =>
    let sides := jsSplitOn timecode " --> "
    match timeToMs (some (sides.headD "")), timeToMs sides[1]? with
    | .ok s, .ok e => .ok ⟨s, e, jsJoinNewline (lines.drop 2)⟩
    | _, _ => .error ()

/-- JavaScript `Array.prototype.map` under exceptions: the first throwing
element aborts the whole map. -/
def mapExcept (f : String → Except Unit SrtEntry) : List String → Except Unit (List SrtEntry)
  | [] => .ok []
  | b :: bs =>
    match f b with
    | .error e => .error e
    | .ok x =>
      match mapExcept f bs with
      | .error e => .error e
      | .ok xs => .ok (x :: xs)

/-- Model of `SubtitleTrack.parseSRT(content)` from `content.js`: trim, split into
blocks on blank lines, parse each block. -/
def parseSRT (content : String) : Except Unit (List SrtEntry) :=
  mapExcept parseBlock (splitBlocksStr (jsTrimStr content))

/-- Decidable equality for `Except`, needed to evaluate parser results. -/
instance {ε α : Type _} [DecidableEq ε] [DecidableEq α] : DecidableEq (Except ε α) := fun a b =>
  match a, b with
  | .error e, .error f => decidable_of_iff (e = f) (by simp)
  | .ok x, .ok y => decidable_of_iff (x = y) (by simp)
  | .error _, .ok _ => isFalse (by simp)
  | .ok _, .error _ => isFalse (by simp)

/-- The `SubtitleTrack` class state from `content.js`: parsed entries,
current position, derived duration (`NaN`-able, from the last entry's end),
per-track offset and the display color. -/
structure SubtitleTrack where
  subtitles : List SrtEntry
  currentTimeMs : ℤ
  duration : JVal
  timeOffset : ℤ
  color : String
deriving DecidableEq, Repr

namespace SubtitleTrack

/-- Constructor `new SubtitleTrack(color)`: empty track at position 0. -/
def mk0 (color : String) : SubtitleTrack :=
  { subtitles := [], currentTimeMs := 0, duration := .num 0, timeOffset := 0, color := color }

/-- Model of `SubtitleTrack.getCurrentSubtitle`: linear first-match scan of the
entries against the offset-adjusted position, both range ends inclusive. -/
def getCurrentSubtitle (t : SubtitleTrack) : Option SrtEntry :=
  let adjustedTime := t.currentTimeMs + t.timeOffset
  t.subtitles.find? (fun sub =>
    JVal.jle sub.start (.num adjustedTime) && JVal.jle (.num adjustedTime) sub.end_)

/-- Model of `SubtitleTrack.loadSubtitles`: parse, then replace the entries, derive
`duration` from the last entry (`?.end ?? 0`) and reset the position; a
parse throw propagates, leaving the track untouched. -/
def loadSubtitles (t : SubtitleTrack) (content : String) : Except Unit SubtitleTrack :=
  match parseSRT content with
  | .error e => .error e
  | .ok subs =>
    .ok { t with
      subtitles := subs
      duration := match subs.getLast? with | none => .num 0 | some x => x.end_
      currentTimeMs := 0 }

end SubtitleTrack

/-- Track slots of the dual player (`Object.entries(this.tracks)` order:
primary then secondary). -/
inductive Slot where
  | primary
  | secondary
deriving DecidableEq, Repr

/-- The `DualSubtitlePlayer` class state from `content.js`, together with an
explicit model of the browser's animation-frame scheduler: `pending` is the
ordered list of scheduled `updateFrame` callbacks, each carrying its own
captured `lastTime`; `animationFrameId` is the id most recently stored by
`requestAnimationFrame`; ids are allocated from `nextId` (browsers start
at 1, and `if (this.animationFrameId)` treats an unset id as absent). -/
structure DualSubtitlePlayer where
  primary : SubtitleTrack
  secondary : SubtitleTrack
  isPlaying : Bool
  syncEnabled : Bool
  pending : List (ℕ × ℤ)
  animationFrameId : Option ℕ
  nextId : ℕ
deriving DecidableEq, Repr

namespace DualSubtitlePlayer

/-- Constructor `new DualSubtitlePlayer()`: white primary, yellow secondary, paused,
sync on, no scheduled callback. -/
def init : DualSubtitlePlayer :=
  { primary := .mk0 "white", secondary := .mk0 "yellow", isPlaying := false,
    syncEnabled := true, pending := [], animationFrameId := none, nextId := 1 }

/-- Read the track in a slot. -/
def track (d : DualSubtitlePlayer) : Slot → SubtitleTrack
  | .primary => d.primary
  | .secondary => d.secondary

/-- Replace the track in a slot. -/
def setTrack (d : DualSubtitlePlayer) : Slot → SubtitleTrack → DualSubtitlePlayer
  | .primary, t => { d with primary := t }
  | .secondary, t => { d with secondary := t }

/-- Model of `DualSubtitlePlayer.setAllTracksTime(newTime, sourceTrack)`: the source
track gets `newTime`; every other track gets
`newTime + (sourceOffset - track.timeOffset)`. -/
def setAllTracksTime (d : DualSubtitlePlayer) (newTime : ℤ) (sourceTrack : Slot) :
    DualSubtitlePlayer :=
  let sourceOffset := (d.track sourceTrack).timeOffset
  let upd := fun (key : Slot) (track : SubtitleTrack) =>
    if key = sourceTrack then { track with currentTimeMs := newTime }
    else { track with currentTimeMs := newTime + (sourceOffset - track.timeOffset) }
  { d with primary := upd .primary d.primary, secondary := upd .secondary d.secondary }

/-- The progress-bar `input` handler in `createTrackControls`: a seek routed
through `setAllTracksTime` when `syncEnabled`, otherwise moving only the
source track. -/
def handleSeek (d : DualSubtitlePlayer) (newTime : ℤ) (trackKey : Slot) :
    DualSubtitlePlayer :=
  if d.syncEnabled then d.setAllTracksTime newTime trackKey
  else d.setTrack trackKey { d.track trackKey with currentTimeMs := newTime }

/-- Model of `DualSubtitlePlayer.parseTimeInput(timeStr)`: take the part before `/`,
trim it, split on colons, map `Number`; `null` when any of the three clock
fields is NaN (a missing field destructures to `undefined`, which is NaN). -/
def parseTimeInput (timeStr : String) : Option ℤ :=
  let timePart := jsTrimStr ((jsSplitOn timeStr "/").headD "")
  let fields := (jsSplitOn timePart ":").map jsNumber
  match fields[0]?.getD .nan, fields[1]?.getD .nan, fields[2]?.getD .nan with
  | .num hours, .num minutes, .num seconds =>
    some (hours * 3600000 + minutes * 60000 + seconds * 1000)
  | _, _, _ => none

/-- The time-display `change` handler in `createTrackControls`: parse the
typed string; on `null` do nothing, otherwise seek. -/
def handleTimeInput (d : DualSubtitlePlayer) (timeStr : String) (trackKey : Slot) :
    DualSubtitlePlayer :=
  match parseTimeInput timeStr with
  | none => d
  | some newTime => d.handleSeek newTime trackKey

/-- The position update of one `updateFrame` body: add the elapsed delta to
every track (`for (const track of Object.values(this.tracks))`). -/
def advance (d : DualSubtitlePlayer) (deltaTime : ℤ) : DualSubtitlePlayer :=
  { d with
    primary := { d.primary with currentTimeMs := d.primary.currentTimeMs + deltaTime }
    secondary := { d.secondary with currentTimeMs := d.secondary.currentTimeMs + deltaTime } }

/-- One tick of `updateFrame` (scheduling aside): bail out when not playing,
otherwise advance every track by the elapsed delta, with no duration check. -/
def tick (d : DualSubtitlePlayer) (deltaTime : ℤ) : DualSubtitlePlayer :=
  if d.isPlaying then d.advance deltaTime else d

/-- Model of `requestAnimationFrame(updateFrame)` plus the id store: append a callback
that captured `lastTime`, remember its id. -/
def schedule (d : DualSubtitlePlayer) (lastTime : ℤ) : DualSubtitlePlayer :=
  { d with
    pending := d.pending ++ [(d.nextId, lastTime)]
    animationFrameId := some d.nextId
    nextId := d.nextId + 1 }

/-- Model of `DualSubtitlePlayer.startTimer()` at wall-clock `now`
(`let lastTime = performance.now()` then the initial `requestAnimationFrame`). -/
def startTimer (d : DualSubtitlePlayer) (now : ℤ) : DualSubtitlePlayer :=
  d.schedule now

/-- Model of `DualSubtitlePlayer.play()`: set `isPlaying` and start a timer loop —
no guard on the tracks having entries. -/
def play (d : DualSubtitlePlayer) (now : ℤ) : DualSubtitlePlayer :=
  ({ d with isPlaying := true }).startTimer now

/-- Model of `DualSubtitlePlayer.pause()`: clear `isPlaying` and cancel the callback
whose id was last stored (the id itself is not cleared in this class). -/
def pause (d : DualSubtitlePlayer) : DualSubtitlePlayer :=
  let d1 := { d with isPlaying := false }
  match d1.animationFrameId with
  | some i => { d1 with pending := d1.pending.filter (fun p => p.1 ≠ i) }
  | none => d1

/-- One scheduled `updateFrame` callback firing at wall-clock `t`: if paused
it returns immediately; otherwise it advances all tracks by `t - lastTime`
and reschedules itself for the next frame. -/
def fireOne (t : ℤ) (cb : ℕ × ℤ) (d : DualSubtitlePlayer) : DualSubtitlePlayer :=
  if d.isPlaying then (d.advance (t - cb.2)).schedule t else d

/-- One animation frame at wall-clock `t`: every callback pending at the
start of the frame fires in registration order; reschedules land in the next
frame's pending list. -/
def fireFrame (d : DualSubtitlePlayer) (t : ℤ) : DualSubtitlePlayer :=
  d.pending.foldl (fun acc cb => fireOne t cb acc) { d with pending := [] }

/-- The page-level `createSubtitleOverlay` message handler: load into the
chosen track; a throw is caught and answered with `success: false`, leaving
the player unchanged. -/
def handleMessage (d : DualSubtitlePlayer) (srtContent : String) (isSecondary : Bool) :
    DualSubtitlePlayer × Bool :=
  let slot := if isSecondary then Slot.secondary else Slot.primary
  match (d.track slot).loadSubtitles srtContent with
  | .error _ => (d, false)
  | .ok t' => (d.setTrack slot t', true)

end DualSubtitlePlayer

/-- The single-track `SubtitlePlayer` class state (the variant with the
auto-reset at end of duration and the empty-subtitles play guard). -/
structure SubtitlePlayer where
  subtitles : List SrtEntry
  currentTimeMs : ℤ
  duration : JVal
  isPlaying : Bool
  pending : List (ℕ × ℤ)
  animationFrameId : Option ℕ
  nextId : ℕ
deriving DecidableEq, Repr

namespace SubtitlePlayer

/-- Model of `requestAnimationFrame` in the single-track player. -/
def schedule (s : SubtitlePlayer) (lastTime : ℤ) : SubtitlePlayer :=
  { s with
    pending := s.pending ++ [(s.nextId, lastTime)]
    animationFrameId := some s.nextId
    nextId := s.nextId + 1 }

/-- Model of `SubtitlePlayer.startTimer()` at wall-clock `now`. -/
def startTimer (s : SubtitlePlayer) (now : ℤ) : SubtitlePlayer :=
  s.schedule now

/-- Model of `SubtitlePlayer.play()`: `if (!this.subtitles.length) return;` — a
strict no-op on an empty track; otherwise set `isPlaying` and start the
timer. -/
def play (s : SubtitlePlayer) (now : ℤ) : SubtitlePlayer :=
  if s.subtitles.isEmpty then s
  else ({ s with isPlaying := true }).startTimer now

/-- Model of `cancelAnimationFrame(this.animationFrameId); this.animationFrameId = null`. -/
def cancelFrame (s : SubtitlePlayer) : SubtitlePlayer :=
  match s.animationFrameId with
  | some i => { s with pending := s.pending.filter (fun p => p.1 ≠ i), animationFrameId := none }
  | none => s

/-- Model of `SubtitlePlayer.reset()` (state part): position 0, paused, frame
cancelled. -/
def reset (s : SubtitlePlayer) : SubtitlePlayer :=
  { s.cancelFrame with currentTimeMs := 0, isPlaying := false }

/-- One tick of the single-track `updateFrame` (scheduling aside): bail out
when paused; add the delta; when the new position reaches the duration,
`reset()` — position 0 and paused. -/
def tick (s : SubtitlePlayer) (deltaTime : ℤ) : SubtitlePlayer :=
  if s.isPlaying then
    let pos := s.currentTimeMs + deltaTime
    if JVal.jle s.duration (.num pos) then ({ s with currentTimeMs := pos }).reset
    else { s with currentTimeMs := pos }
  else s

end SubtitlePlayer

/-- The three `Number`-mapped clock fields `parseTimeInput` destructures:
the part of the typed string before `/`, trimmed, split on colons. -/
def clockFields (timeStr : String) : List JVal :=
  (jsSplitOn (jsTrimStr ((jsSplitOn timeStr "/").headD "")) ":").map jsNumber

/-- A block on which the `blocks.map` callback throws: fewer than two lines
(no timecode line), or a timecode line without the literal separator, so
that the end side destructures to `undefined`. -/
def blockMalformed (block : String) : Bool :=
  match (splitLinesStr block)[1]? with
  | none => true
  | some timecode => ((jsSplitOn timecode " --> ")[1]?).isNone

/-- Whether an entry's inclusive `[start, end]` range contains the track's
offset-adjusted position — the predicate scanned by `getCurrentSubtitle`. -/
def SubtitleTrack.containsPos (t : SubtitleTrack) (sub : SrtEntry) : Bool :=
  JVal.jle sub.start (.num (t.currentTimeMs + t.timeOffset)) &&
    JVal.jle (.num (t.currentTimeMs + t.timeOffset)) sub.end_

/-- The two-entry example SRT text from the specification. -/
def specSrt : String :=
  "1\n00:00:01,000 --> 00:00:02,500\nHello\n\n2\n00:00:03,000 --> 00:00:04,000\nWorld"

/-- The first entry `specSrt` parses to. -/
def helloEntry : SrtEntry := ⟨.num 1000, .num 2500, "Hello"⟩

/-- The second entry `specSrt` parses to. -/
def worldEntry : SrtEntry := ⟨.num 3000, .num 4000, "World"⟩

/-- A track loaded with the two spec entries, positioned at `pos`, offset 0. -/
def specTrackAt (pos : ℤ) : SubtitleTrack :=
  { subtitles := [helloEntry, worldEntry], currentTimeMs := pos,
    duration := .num 4000, timeOffset := 0, color := "white" }

/-- A fresh dual player whose secondary track has offset 2000 (the
configuration of the spec's dual-seek example). -/
def offsetDual : DualSubtitlePlayer :=
  { DualSubtitlePlayer.init with
    secondary := { DualSubtitlePlayer.init.secondary with timeOffset := 2000 } }

/-- A fresh dual player that is playing (used to witness tick claims). -/
def playingDual : DualSubtitlePlayer :=
  { DualSubtitlePlayer.init with isPlaying := true }

/-- A single-track player with one loaded caption, playing, 100 ms before
its 1000 ms duration. -/
def nearEndSingle : SubtitlePlayer :=
  { subtitles := [helloEntry], currentTimeMs := 900, duration := .num 1000,
    isPlaying := true, pending := [], animationFrameId := none, nextId := 1 }

/-- A single-track player with no subtitles loaded. -/
def emptySingle : SubtitlePlayer :=
  { subtitles := [], currentTimeMs := 0, duration := .num 0,
    isPlaying := false, pending := [], animationFrameId := none, nextId := 1 }

/-- Scheduler-state invariant of the dual player: while playing, exactly the
most recently registered callback is pending; while paused, none is. -/
def DualSubtitlePlayer.SchedInv (d : DualSubtitlePlayer) : Prop :=
  (d.isPlaying = true → ∃ c, d.pending = [c] ∧ d.animationFrameId = some c.1) ∧
  (d.isPlaying = false → d.pending = [])

/-- States of a dual player reachable from construction through the public
operations, with `play` only invoked when not already playing (the
discipline the UI's single toggle button enforces). -/
inductive DualSubtitlePlayer.Reach : DualSubtitlePlayer → Prop where
  | init : Reach DualSubtitlePlayer.init
  | play {d : DualSubtitlePlayer} (t : ℤ) :
      Reach d → d.isPlaying = false → Reach (d.play t)
  | pause {d : DualSubtitlePlayer} : Reach d → Reach d.pause
  | frame {d : DualSubtitlePlayer} (t : ℤ) : Reach d → Reach (d.fireFrame t)
  | seek {d : DualSubtitlePlayer} (n : ℤ) (sl : Slot) :
      Reach d → Reach (d.handleSeek n sl)
  | timeInput {d : DualSubtitlePlayer} (str : String) (sl : Slot) :
      Reach d → Reach (d.handleTimeInput str sl)
  | load {d : DualSubtitlePlayer} (content : String) (sec : Bool) :
      Reach d → Reach (d.handleMessage content sec).1

/-- A successful `find?` returns the first satisfying element: the list
splits around the hit, with everything before it failing the predicate. -/
theorem find_first_split {α : Type _} (p : α → Bool) :
    ∀ (l : List α) (a : α), l.find? p = some a →
      ∃ l1 l2, l = l1 ++ a :: l2 ∧ p a = true ∧ ∀ x ∈ l1, p x = false := by
  intro l
  induction l with
  | nil => intro a h; simp [List.find?] at h
  | cons b bs ih =>
    intro a h
    by_cases hb : p b = true
    · rw [List.find?_cons_of_pos _ hb] at h
      cases h
      exact ⟨[], bs, by simp, hb, by simp⟩
    · rw [List.find?_cons_of_neg _ (by simpa using hb)] at h
      obtain ⟨l1, l2, heq, hpa, hall⟩ := ih a h
      refine ⟨b :: l1, l2, by simp [heq], hpa, ?_⟩
      intro x hx
      rcases List.mem_cons.mp hx with hx | hx
      · subst hx; simpa using hb
      · exact hall x hx

/-- Lemma: `mapExcept` fails exactly when some element fails. -/
theorem mapExcept_error_iff (f : String → Except Unit SrtEntry) (l : List String) :
    mapExcept f l = .error () ↔ ∃ b ∈ l, f b = .error () := by
  induction l with
  | nil => simp [mapExcept]
  | cons b bs ih =>
    cases hb : f b with
    | error e =>
      cases e
      constructor
      · intro _
        exact ⟨b, List.mem_cons_self b bs, hb⟩
      · intro _
        simp [mapExcept, hb]
    | ok x =>
      cases hrest : mapExcept f bs with
      | error e =>
        cases e
        constructor
        · intro _
          obtain ⟨c, hc, hfc⟩ := ih.mp hrest
          exact ⟨c, List.mem_cons_of_mem b hc, hfc⟩
        · intro _
          simp [mapExcept, hb, hrest]
      | ok xs =>
        constructor
        · intro h
          rw [mapExcept, hb, hrest] at h
          exact absurd h (by simp)
        · rintro ⟨c, hc, hfc⟩
          rcases List.mem_cons.mp hc with hc | hc
          · subst hc
            rw [hb] at hfc
            exact absurd hfc (by simp)
          · have h2 := ih.mpr ⟨c, hc, hfc⟩
            rw [hrest] at h2
            exact absurd h2 (by simp)

/-- Lemma: `parseBlock` throws exactly on a malformed block: no timecode line, or
no ` --> `-separated end side. -/
theorem parseBlock_error_iff (b : String) :
    parseBlock b = .error () ↔ blockMalformed b = true := by
  unfold parseBlock blockMalformed
  cases h1 : (splitLinesStr b)[1]? with
  | none => simp [h1]
  | some timecode =>
    cases h2 : (jsSplitOn timecode " --> ")[1]? with
    | none => simp [h1, timeToMs, h2]
    | some e => simp [h1, timeToMs, h2]

/-- A parse throw reaches the message handler's catch: the player is left
unchanged and the response is `success: false`. -/
theorem handleMessage_of_parseError (d : DualSubtitlePlayer) (content : String)
    (isSecondary : Bool) (h : parseSRT content = .error ()) :
    d.handleMessage content isSecondary = (d, false) := by
  unfold DualSubtitlePlayer.handleMessage SubtitleTrack.loadSubtitles
  rw [h]

/-- Seeks touch only the tracks, never the scheduler state. -/
theorem handleSeek_scheduler (d : DualSubtitlePlayer) (n : ℤ) (sl : Slot) :
    (d.handleSeek n sl).pending = d.pending ∧
    (d.handleSeek n sl).isPlaying = d.isPlaying ∧
    (d.handleSeek n sl).animationFrameId = d.animationFrameId ∧
    (d.handleSeek n sl).nextId = d.nextId := by
  unfold DualSubtitlePlayer.handleSeek DualSubtitlePlayer.setAllTracksTime
    DualSubtitlePlayer.setTrack
  by_cases h : d.syncEnabled = true <;> cases sl <;> simp [h]

/-- Typed time input touches only the tracks, never the scheduler state. -/
theorem handleTimeInput_scheduler (d : DualSubtitlePlayer) (str : String) (sl : Slot) :
    (d.handleTimeInput str sl).pending = d.pending ∧
    (d.handleTimeInput str sl).isPlaying = d.isPlaying ∧
    (d.handleTimeInput str sl).animationFrameId = d.animationFrameId ∧
    (d.handleTimeInput str sl).nextId = d.nextId := by
  unfold DualSubtitlePlayer.handleTimeInput
  cases DualSubtitlePlayer.parseTimeInput str with
  | none => simp
  | some n => exact handleSeek_scheduler d n sl

/-- Loading content touches only the tracks, never the scheduler state. -/
theorem handleMessage_scheduler (d : DualSubtitlePlayer) (content : String) (sec : Bool) :
    (d.handleMessage content sec).1.pending = d.pending ∧
    (d.handleMessage content sec).1.isPlaying = d.isPlaying ∧
    (d.handleMessage content sec).1.animationFrameId = d.animationFrameId ∧
    (d.handleMessage content sec).1.nextId = d.nextId := by
  unfold DualSubtitlePlayer.handleMessage
  cases h : ((d.track (if sec then Slot.secondary else Slot.primary)).loadSubtitles content) with
  | error e => simp [h]
  | ok t' =>
    cases sec <;> simp_all [DualSubtitlePlayer.setTrack]

/-- The scheduler invariant only depends on the scheduler fields. -/
theorem schedInv_congr {d e : DualSubtitlePlayer}
    (hp : e.pending = d.pending) (hpl : e.isPlaying = d.isPlaying)
    (ha : e.animationFrameId = d.animationFrameId)
    (h : d.SchedInv) : e.SchedInv := by
  constructor
  · intro hx
    rw [hpl] at hx
    obtain ⟨c, hc, hid⟩ := h.1 hx
    exact ⟨c, by rw [hp, hc], by rw [ha, hid]⟩
  · intro hx
    rw [hpl] at hx
    rw [hp, h.2 hx]

/-- While paused, a whole animation frame leaves the player unchanged apart
from emptying the pending list: every stale callback sees `isPlaying`
false and returns without advancing anything. -/
theorem foldl_fireOne_paused (t : ℤ) (l : List (ℕ × ℤ)) (acc : DualSubtitlePlayer)
    (h : acc.isPlaying = false) :
    l.foldl (fun a cb => DualSubtitlePlayer.fireOne t cb a) acc = acc := by
  induction l with
  | nil => rfl
  | cons cb cbs ih =>
    have h1 : DualSubtitlePlayer.fireOne t cb acc = acc := by
      unfold DualSubtitlePlayer.fireOne
      rw [h]
      simp
    rw [List.foldl_cons, h1]
    exact ih

/-- Every reachable state of the dual player satisfies the scheduler
invariant, provided `play` is only invoked when not already playing. -/
theorem schedInv_of_reach {d : DualSubtitlePlayer} (h : d.Reach) : d.SchedInv := by
  induction h with
  | init =>
    exact ⟨fun hx => by simp [DualSubtitlePlayer.init] at hx, fun _ => rfl⟩
  | play t hr hnp ih =>
    rename_i d'
    refine ⟨fun _ => ⟨(d'.nextId, t), ?_, ?_⟩, fun hx => ?_⟩
    · simp [DualSubtitlePlayer.play, DualSubtitlePlayer.startTimer,
        DualSubtitlePlayer.schedule, ih.2 hnp]
    · simp [DualSubtitlePlayer.play, DualSubtitlePlayer.startTimer,
        DualSubtitlePlayer.schedule]
    · simp [DualSubtitlePlayer.play, DualSubtitlePlayer.startTimer,
        DualSubtitlePlayer.schedule] at hx
  | pause hr ih =>
    rename_i d'
    refine ⟨fun hx => ?_, fun _ => ?_⟩
    · simp [DualSubtitlePlayer.pause] at hx
      cases hafid : d'.animationFrameId <;> simp [DualSubtitlePlayer.pause, hafid] at hx
    · cases hpl : d'.isPlaying with
      | false =>
        have hp := ih.2 hpl
        cases hafid : d'.animationFrameId <;>
          simp [DualSubtitlePlayer.pause, hafid, hp]
      | true =>
        obtain ⟨c, hc, hid⟩ := ih.1 hpl
        simp [DualSubtitlePlayer.pause, hid, hc]
  | frame t hr ih =>
    rename_i d'
    cases hpl : d'.isPlaying with
    | false =>
      have hp := ih.2 hpl
      have : d'.fireFrame t = { d' with pending := [] } := by
        unfold DualSubtitlePlayer.fireFrame
        rw [hp]
        rfl
      rw [this]
      exact ⟨fun hx => by simp [hpl] at hx, fun _ => rfl⟩
    | true =>
      obtain ⟨c, hc, hid⟩ := ih.1 hpl
      have : d'.fireFrame t =
          (({ d' with pending := [] } : DualSubtitlePlayer).advance (t - c.2)).schedule t := by
        unfold DualSubtitlePlayer.fireFrame
        rw [hc]
        simp [DualSubtitlePlayer.fireOne, hpl]
      rw [this]
      refine ⟨fun _ => ⟨(d'.nextId, t), ?_, ?_⟩, fun hx => ?_⟩
      · simp [DualSubtitlePlayer.advance, DualSubtitlePlayer.schedule]
      · simp [DualSubtitlePlayer.advance, DualSubtitlePlayer.schedule]
      · simp [DualSubtitlePlayer.advance, DualSubtitlePlayer.schedule, hpl] at hx
  | seek n sl hr ih =>
    rename_i d'
    obtain ⟨hp, hpl, ha, _⟩ := handleSeek_scheduler d' n sl
    exact schedInv_congr hp hpl ha ih
  | timeInput str sl hr ih =>
    rename_i d'
    obtain ⟨hp, hpl, ha, _⟩ := handleTimeInput_scheduler d' str sl
    exact schedInv_congr hp hpl ha ih
  | load content sec hr ih =>
    rename_i d'
    obtain ⟨hp, hpl, ha, _⟩ := handleMessage_scheduler d' content sec
    exact schedInv_congr hp hpl ha ih

/-- Repeated dual-player ticks while playing: positions advance linearly and
the player never pauses or resets. -/
theorem dual_iterate_tick (deltaTime : ℤ) (n : ℕ) :
    ∀ d : DualSubtitlePlayer, d.isPlaying = true →
      ((fun x => DualSubtitlePlayer.tick x deltaTime)^[n] d).primary.currentTimeMs =
        d.primary.currentTimeMs + n * deltaTime ∧
      ((fun x => DualSubtitlePlayer.tick x deltaTime)^[n] d).secondary.currentTimeMs =
        d.secondary.currentTimeMs + n * deltaTime ∧
      ((fun x => DualSubtitlePlayer.tick x deltaTime)^[n] d).isPlaying = true := by
  induction n with
  | zero => intro d h; simp [h]
  | succ n ih =>
    intro d h
    rw [Function.iterate_succ_apply]
    have h1 : (d.tick deltaTime).isPlaying = true := by
      simp [DualSubtitlePlayer.tick, DualSubtitlePlayer.advance, h]
    obtain ⟨hp, hs, hpl⟩ := ih (d.tick deltaTime) h1
    refine ⟨?_, ?_, hpl⟩
    · rw [hp]
      simp [DualSubtitlePlayer.tick, DualSubtitlePlayer.advance, h]
      ring
    · rw [hs]
      simp [DualSubtitlePlayer.tick, DualSubtitlePlayer.advance, h]
      ring

/-- C1: with `syncEnabled`, a seek routed through `setAllTracksTime` puts
the source track exactly at `newPositionMs` and every other track at
`newPositionMs + (sourceTrack.offsetMs - otherTrack.offsetMs)`. -/
theorem c1_sync_seek (d : DualSubtitlePlayer) (newTime : ℤ) (src : Slot)
    (hsync : d.syncEnabled = true) :
    ((d.handleSeek newTime src).track src).currentTimeMs = newTime ∧
    ∀ other : Slot, other ≠ src →
      ((d.handleSeek newTime src).track other).currentTimeMs =
        newTime + ((d.track src).timeOffset - (d.track other).timeOffset) := by
  constructor
  · cases src <;>
      simp [DualSubtitlePlayer.handleSeek, hsync, DualSubtitlePlayer.setAllTracksTime,
        DualSubtitlePlayer.track]
  · intro other hne
    cases src <;> cases other <;> simp at hne <;>
      simp [DualSubtitlePlayer.handleSeek, hsync, DualSubtitlePlayer.setAllTracksTime,
        DualSubtitlePlayer.track]

/-- Witness for C1 at a concrete player and seek. -/
theorem c1_sync_seek_witness :
    ((DualSubtitlePlayer.init.handleSeek 5000 Slot.primary).track Slot.secondary).currentTimeMs =
      5000 + ((DualSubtitlePlayer.init.track Slot.primary).timeOffset -
        (DualSubtitlePlayer.init.track Slot.secondary).timeOffset) :=
  (c1_sync_seek DualSubtitlePlayer.init 5000 Slot.primary rfl).2 Slot.secondary (by decide)

/-- C2 counterexample: with primary offset 0 and secondary offset 2000,
seeking the primary track to 5000 under sync does not put the secondary
track at 7000 (it lands at 3000). -/
theorem c2_counterexample :
    offsetDual.syncEnabled = true ∧
    offsetDual.primary.timeOffset = 0 ∧
    offsetDual.secondary.timeOffset = 2000 ∧
    (offsetDual.handleSeek 5000 Slot.primary).secondary.currentTimeMs ≠ 7000 := by
  decide

/-- C2 amended: under sync with primary offset 0 and secondary offset 2000,
seeking the primary track to 5000 sets the secondary track's position to
3000 = 5000 + (0 - 2000). -/
theorem c2_amended (d : DualSubtitlePlayer) (hsync : d.syncEnabled = true)
    (hp : d.primary.timeOffset = 0) (hs : d.secondary.timeOffset = 2000) :
    (d.handleSeek 5000 Slot.primary).secondary.currentTimeMs = 3000 := by
  simp [DualSubtitlePlayer.handleSeek, hsync, DualSubtitlePlayer.setAllTracksTime,
    DualSubtitlePlayer.track, hp, hs]

/-- Witness for the amended C2 at the concrete offset configuration. -/
theorem c2_amended_witness :
    (offsetDual.handleSeek 5000 Slot.primary).secondary.currentTimeMs = 3000 :=
  c2_amended offsetDual rfl rfl rfl

/-- C3: while playing, a tick adds the elapsed delta to both tracks no
matter what `syncEnabled` is, and two 500 ms ticks advance both tracks by
exactly 1000 ms. -/
theorem c3_tick_advances_all (d : DualSubtitlePlayer) (deltaTime : ℤ)
    (h : d.isPlaying = true) :
    ((d.tick deltaTime).primary.currentTimeMs = d.primary.currentTimeMs + deltaTime ∧
     (d.tick deltaTime).secondary.currentTimeMs = d.secondary.currentTimeMs + deltaTime ∧
     (d.tick deltaTime).isPlaying = true ∧
     (d.tick deltaTime).syncEnabled = d.syncEnabled) ∧
    (((d.tick 500).tick 500).primary.currentTimeMs = d.primary.currentTimeMs + 1000 ∧
     ((d.tick 500).tick 500).secondary.currentTimeMs = d.secondary.currentTimeMs + 1000) := by
  refine ⟨⟨?_, ?_, ?_, ?_⟩, ?_, ?_⟩ <;>
    simp [DualSubtitlePlayer.tick, DualSubtitlePlayer.advance, h] <;> ring

/-- Witness for C3 on a fresh playing player. -/
theorem c3_tick_advances_all_witness :
    (playingDual.tick 500).primary.currentTimeMs = playingDual.primary.currentTimeMs + 500 ∧
    ((playingDual.tick 500).tick 500).secondary.currentTimeMs =
      playingDual.secondary.currentTimeMs + 1000 :=
  ⟨(c3_tick_advances_all playingDual 500 rfl).1.1,
   (c3_tick_advances_all playingDual 500 rfl).2.2⟩

/-- C4: `getCurrentSubtitle` returns the first entry in timeline order whose
inclusive `[start, end]` range contains the offset-adjusted position
(everything before the hit fails the containment test), returns none exactly
when no entry's range contains it, and the end bound is inclusive: on the
spec's two-entry timeline the query at 1500 and at the exact end 2500
returns "Hello", while 2600 (past the inclusive end) returns none. -/
theorem c4_get_current_subtitle :
    (∀ (t : SubtitleTrack) (e : SrtEntry), t.getCurrentSubtitle = some e →
      ∃ l1 l2, t.subtitles = l1 ++ e :: l2 ∧ t.containsPos e = true ∧
        ∀ x ∈ l1, t.containsPos x = false) ∧
    (∀ t : SubtitleTrack,
      t.getCurrentSubtitle = none ↔ ∀ e ∈ t.subtitles, t.containsPos e = false) ∧
    (parseSRT specSrt = .ok [helloEntry, worldEntry] ∧
     (specTrackAt 1500).getCurrentSubtitle = some helloEntry ∧
     (specTrackAt 2500).getCurrentSubtitle = some helloEntry ∧
     (specTrackAt 2600).getCurrentSubtitle = none) := by
  refine ⟨?_, ?_, by decide⟩
  · intro t e h
    exact find_first_split _ _ _ h
  · intro t
    have heq : t.getCurrentSubtitle = t.subtitles.find? t.containsPos := rfl
    rw [heq, List.find?_eq_none]
    simp only [Bool.not_eq_true]

/-- Witness for C4 on the spec timeline positioned at the inclusive end. -/
theorem c4_get_current_subtitle_witness :
    ∃ l1 l2, (specTrackAt 2500).subtitles = l1 ++ helloEntry :: l2 ∧
      (specTrackAt 2500).containsPos helloEntry = true ∧
      ∀ x ∈ l1, (specTrackAt 2500).containsPos x = false :=
  c4_get_current_subtitle.1 (specTrackAt 2500) helloEntry (by decide)

/-- C5 counterexample: a timecode with the non-numeric hours field `xx`
does not fail — `parseSRT` succeeds and silently yields an entry whose
start is NaN. -/
theorem c5_counterexample :
    jsNumber "xx" = .nan ∧
    parseSRT "1\nxx:00:01,000 --> 00:00:02,000\nHi" =
      .ok [⟨.nan, .num 2000, "Hi"⟩] := by
  decide

/-- C5 amended: parsing fails exactly on a structurally malformed block —
one with no timecode line or no ` --> `-separated end side; a non-numeric
time field alone parses fine, producing a NaN-timed entry; and a parse
failure is all-or-nothing: the message handler leaves the player (its
timelines, durations and positions) unchanged and reports failure. -/
theorem c5_parse_failure :
    (∀ content : String, parseSRT content = .error () ↔
      ∃ b ∈ splitBlocksStr (jsTrimStr content), blockMalformed b = true) ∧
    (∀ (d : DualSubtitlePlayer) (content : String) (isSecondary : Bool),
      parseSRT content = .error () →
      d.handleMessage content isSecondary = (d, false)) ∧
    parseSRT "1\nxx:00:01,000 --> 00:00:02,000\nHi" =
      .ok [⟨.nan, .num 2000, "Hi"⟩] := by
  refine ⟨?_, handleMessage_of_parseError, by decide⟩
  intro content
  unfold parseSRT
  rw [mapExcept_error_iff]
  constructor
  · rintro ⟨b, hb, hfb⟩
    exact ⟨b, hb, (parseBlock_error_iff b).mp hfb⟩
  · rintro ⟨b, hb, hmb⟩
    exact ⟨b, hb, (parseBlock_error_iff b).mpr hmb⟩

/-- Witness for C5 on a block with no timecode line. -/
theorem c5_parse_failure_witness :
    DualSubtitlePlayer.init.handleMessage "1" false = (DualSubtitlePlayer.init, false) :=
  c5_parse_failure.2.1 DualSubtitlePlayer.init "1" false (by decide)

/-- C6 counterexample: parsing the empty string does not succeed with an
empty timeline — it throws: splitting the trimmed empty content yields one
empty block, whose timecode line is `undefined`. -/
theorem c6_counterexample : parseSRT "" = .error () := by
  decide

/-- C6 amended: every input that is empty after trimming fails to parse
(rather than yielding an empty timeline), and the failure leaves the
player's previously loaded timelines, durations and positions unchanged. -/
theorem c6_empty_input (content : String) (h : jsTrimStr content = "") :
    parseSRT content = .error () ∧
    ∀ (d : DualSubtitlePlayer) (isSecondary : Bool),
      d.handleMessage content isSecondary = (d, false) := by
  have hp : parseSRT content = .error () := by
    unfold parseSRT
    rw [h]
    decide
  exact ⟨hp, fun d sec => handleMessage_of_parseError d content sec hp⟩

/-- Witness for C6 on a whitespace-only input. -/
theorem c6_empty_input_witness :
    parseSRT " " = .error () ∧
    DualSubtitlePlayer.init.handleMessage " " false = (DualSubtitlePlayer.init, false) :=
  ⟨(c6_empty_input " " (by decide)).1,
   (c6_empty_input " " (by decide)).2 DualSubtitlePlayer.init false⟩

/-- C7: in the single-track player, a playing tick that carries the position
to (or past) the numeric duration resets the position to 0 and pauses; in
the dual player, any number of playing ticks just advances both positions
linearly and the player stays playing — no stop, pause or reset at any
duration. -/
theorem c7_end_of_duration :
    (∀ (s : SubtitlePlayer) (deltaTime D : ℤ), s.isPlaying = true →
      s.duration = .num D → D ≤ s.currentTimeMs + deltaTime →
      (s.tick deltaTime).currentTimeMs = 0 ∧ (s.tick deltaTime).isPlaying = false) ∧
    (∀ (d : DualSubtitlePlayer) (deltaTime : ℤ) (n : ℕ), d.isPlaying = true →
      ((fun x => DualSubtitlePlayer.tick x deltaTime)^[n] d).primary.currentTimeMs =
        d.primary.currentTimeMs + n * deltaTime ∧
      ((fun x => DualSubtitlePlayer.tick x deltaTime)^[n] d).secondary.currentTimeMs =
        d.secondary.currentTimeMs + n * deltaTime ∧
      ((fun x => DualSubtitlePlayer.tick x deltaTime)^[n] d).isPlaying = true) := by
  constructor
  · intro s deltaTime D hpl hdur hge
    have hcond : JVal.jle s.duration (.num (s.currentTimeMs + deltaTime)) = true := by
      rw [hdur]
      simpa [JVal.jle] using hge
    cases hafid : s.animationFrameId <;>
      simp [SubtitlePlayer.tick, hpl, hcond, SubtitlePlayer.reset,
        SubtitlePlayer.cancelFrame, hafid]
  · intro d deltaTime n hpl
    exact dual_iterate_tick deltaTime n d hpl

/-- Witness for C7: a near-end single-track tick resets and pauses; two
dual ticks of 500 advance the primary by 1000 with the player still
playing. -/
theorem c7_end_of_duration_witness :
    ((nearEndSingle.tick 100).currentTimeMs = 0 ∧
     (nearEndSingle.tick 100).isPlaying = false) ∧
    ((fun x => DualSubtitlePlayer.tick x 500)^[2] playingDual).primary.currentTimeMs =
      playingDual.primary.currentTimeMs + 2 * 500 :=
  ⟨c7_end_of_duration.1 nearEndSingle 100 1000 rfl rfl (by decide),
   ((c7_end_of_duration.2 playingDual 500 2 rfl).1).trans (by norm_num)⟩

/-- C8 counterexample: the dual player's `play()` with both tracks empty is
not a no-op — it sets `isPlaying` and schedules a tick loop. -/
theorem c8_counterexample :
    DualSubtitlePlayer.init.primary.subtitles = [] ∧
    DualSubtitlePlayer.init.secondary.subtitles = [] ∧
    DualSubtitlePlayer.init.isPlaying = false ∧
    (DualSubtitlePlayer.init.play 0).isPlaying = true ∧
    (DualSubtitlePlayer.init.play 0).pending ≠ [] := by
  decide

/-- C8 amended: the single-track player's `play()` is a strict no-op when no
entries are loaded and otherwise sets `playing` and registers a scheduler
callback; the dual player's `play()` unconditionally sets `playing` and
registers a callback, even when no track has entries. -/
theorem c8_play_guard :
    (∀ (s : SubtitlePlayer) (now : ℤ), s.subtitles = [] → s.play now = s) ∧
    (∀ (s : SubtitlePlayer) (now : ℤ), s.subtitles ≠ [] →
      (s.play now).isPlaying = true ∧
      (s.play now).pending = s.pending ++ [(s.nextId, now)]) ∧
    (∀ (d : DualSubtitlePlayer) (now : ℤ),
      (d.play now).isPlaying = true ∧
      (d.play now).pending = d.pending ++ [(d.nextId, now)]) := by
  refine ⟨?_, ?_, ?_⟩
  · intro s now h
    simp [SubtitlePlayer.play, h]
  · intro s now h
    simp [SubtitlePlayer.play, h, SubtitlePlayer.startTimer, SubtitlePlayer.schedule]
  · intro d now
    simp [DualSubtitlePlayer.play, DualSubtitlePlayer.startTimer,
      DualSubtitlePlayer.schedule]

/-- Witness for C8: `play()` on an empty single-track player changes
nothing; on a loaded one it starts playing. -/
theorem c8_play_guard_witness :
    emptySingle.play 0 = emptySingle ∧
    (nearEndSingle.play 0).isPlaying = true :=
  ⟨c8_play_guard.1 emptySingle 0 rfl,
   (c8_play_guard.2.1 nearEndSingle 0 (by decide)).1⟩

/-- C9 counterexample: two consecutive `play()` calls leave two scheduler
loops pending at once, and on the next frame the two stale callbacks each
add the elapsed time, advancing positions at twice wall-clock speed — the
at-most-one-loop invariant fails for unrestricted play/pause sequences. -/
theorem c9_counterexample :
    ((DualSubtitlePlayer.init.play 0).play 0).pending.length = 2 ∧
    ((DualSubtitlePlayer.init.play 0).fireFrame 16).primary.currentTimeMs = 16 ∧
    (((DualSubtitlePlayer.init.play 0).play 0).fireFrame 16).primary.currentTimeMs = 32 := by
  decide

/-- C9 amended: provided `play()` is only invoked when not already playing
(the discipline the single toggle button enforces), every reachable state
has at most one scheduler callback pending; `pause()` cancels the pending
callback; and while paused no animation frame ever changes any track's
position, whatever is pending. -/
theorem c9_single_scheduler :
    (∀ d : DualSubtitlePlayer, d.Reach → d.pending.length ≤ 1) ∧
    (∀ (d : DualSubtitlePlayer) (c : ℕ × ℤ), d.pending = [c] →
      d.animationFrameId = some c.1 → d.pause.pending = []) ∧
    (∀ (d : DualSubtitlePlayer) (t : ℤ), d.isPlaying = false →
      (d.fireFrame t).primary.currentTimeMs = d.primary.currentTimeMs ∧
      (d.fireFrame t).secondary.currentTimeMs = d.secondary.currentTimeMs ∧
      (d.fireFrame t).isPlaying = false) := by
  refine ⟨?_, ?_, ?_⟩
  · intro d hr
    have hinv := schedInv_of_reach hr
    cases hpl : d.isPlaying with
    | true =>
      obtain ⟨c, hc, _⟩ := hinv.1 hpl
      rw [hc]
      simp
    | false =>
      rw [hinv.2 hpl]
      simp
  · intro d c hc hid
    simp [DualSubtitlePlayer.pause, hid, hc]
  · intro d t hpl
    have h1 : d.fireFrame t = { d with pending := [] } := by
      unfold DualSubtitlePlayer.fireFrame
      exact foldl_fireOne_paused t d.pending _ (by simpa using hpl)
    rw [h1]
    exact ⟨rfl, rfl, hpl⟩

/-- Witness for C9 at the freshly constructed player and one paused frame. -/
theorem c9_single_scheduler_witness :
    DualSubtitlePlayer.init.pending.length ≤ 1 ∧
    (DualSubtitlePlayer.init.fireFrame 16).primary.currentTimeMs =
      DualSubtitlePlayer.init.primary.currentTimeMs :=
  ⟨c9_single_scheduler.1 DualSubtitlePlayer.init .init,
   (c9_single_scheduler.2.2 DualSubtitlePlayer.init 16 rfl).1⟩

/-- C10 counterexample: the manual time-input parser does not accept the
`HH:MM:SS,mmm` form — the comma makes the seconds field non-numeric and the
parse returns null — while the plain `HH:MM:SS` form is accepted. -/
theorem c10_counterexample :
    DualSubtitlePlayer.parseTimeInput "00:00:05" = some 5000 ∧
    DualSubtitlePlayer.parseTimeInput "00:00:05,500" = none := by
  decide

/-- The triple match `parseTimeInput` performs on its three clock fields. -/
theorem parseTimeInput_eq_match (timeStr : String) :
    DualSubtitlePlayer.parseTimeInput timeStr =
      match (clockFields timeStr)[0]?.getD .nan, (clockFields timeStr)[1]?.getD .nan,
          (clockFields timeStr)[2]?.getD .nan with
      | .num hours, .num minutes, .num seconds =>
        some (hours * 3600000 + minutes * 60000 + seconds * 1000)
      | _, _, _ => none := rfl

/-- C10 amended: whenever any of the three colon-separated clock fields of
the typed string (before the `/`, trimmed) is non-numeric, `parseTimeInput`
returns null rather than throwing; a null parse leaves the whole player —
every track position and the playing state — unchanged; the parser accepts
plain `HH:MM:SS` (also with a ` / total` suffix) but rejects an `,mmm`
suffix. -/
theorem c10_time_input :
    (∀ (timeStr : String) (i : ℕ), i < 3 →
      (clockFields timeStr)[i]?.getD .nan = .nan →
      DualSubtitlePlayer.parseTimeInput timeStr = none) ∧
    (∀ (d : DualSubtitlePlayer) (timeStr : String) (trackKey : Slot),
      DualSubtitlePlayer.parseTimeInput timeStr = none →
      d.handleTimeInput timeStr trackKey = d) ∧
    (DualSubtitlePlayer.parseTimeInput "01:02:03" = some 3723000 ∧
     DualSubtitlePlayer.parseTimeInput "00:00:05 / 00:01:00" = some 5000 ∧
     DualSubtitlePlayer.parseTimeInput "00:00:05,500" = none) := by
  refine ⟨?_, ?_, by decide⟩
  · intro timeStr i hi hnan
    rw [parseTimeInput_eq_match]
    cases h0 : (clockFields timeStr)[0]?.getD .nan with
    | nan => simp [h0]
    | num a =>
      cases h1 : (clockFields timeStr)[1]?.getD .nan with
      | nan => simp [h0, h1]
      | num b =>
        cases h2 : (clockFields timeStr)[2]?.getD .nan with
        | nan => simp [h0, h1, h2]
        | num c =>
          interval_cases i
          · rw [hnan] at h0
            exact absurd h0 (by simp)
          · rw [hnan] at h1
            exact absurd h1 (by simp)
          · rw [hnan] at h2
            exact absurd h2 (by simp)
  · intro d timeStr trackKey h
    unfold DualSubtitlePlayer.handleTimeInput
    rw [h]

/-- Witness for C10 on a non-numeric seconds field. -/
theorem c10_time_input_witness :
    DualSubtitlePlayer.parseTimeInput "00:00:aa" = none ∧
    DualSubtitlePlayer.init.handleTimeInput "00:00:aa" Slot.primary =
      DualSubtitlePlayer.init :=
  ⟨c10_time_input.1 "00:00:aa" 2 (by decide) (by decide),
   c10_time_input.2.1 DualSubtitlePlayer.init "00:00:aa" Slot.primary
     (c10_time_input.1 "00:00:aa" 2 (by decide) (by decide))⟩
